import Mathlib

/-!
Verification of the cycle engine of `renatlas/autonomous-learner`.

The development shallowly embeds the three core source files
(`continuous-learning-monitor.py`, `github-work-queue.py`,
`autonomous-learner.py`) as executable Lean definitions and proves the
specified properties about them.  Python dictionaries that may or may not
carry a key are embedded as structures of `Option` fields; `dict.get(k, d)`
becomes `Option.getD`.  Python's stable `list.sort(key=..., reverse=True)`
is embedded as a stable insertion sort (stable sorts by the same key agree
extensionally).  The regular expressions of `parse_task_requirements` are
embedded by a small backtracking matcher with Python `re` semantics
(leftmost start, greedy alternatives first).
-/

/-! ## Generic string helpers mirroring Python string operations -/

/-- Python whitespace class `\s` (and the default set of `str.strip`) over
ASCII text: space, tab, newline, carriage return, form feed, vertical tab. -/
def pyWs (c : Char) : Bool :=
  c = ' ' || c = '\t' || c = '\n' || c = '\r' || c = '\x0c' || c = '\x0b'

/-- Python word-character class `\w` restricted to ASCII: letters, digits
and underscore (all issue bodies handled by the queue are ASCII). -/
def pyWord (c : Char) : Bool :=
  c.isAlphanum || c = '_'

/-- Python `.` in a regular expression without `DOTALL`: anything except a
newline. -/
def pyDot (c : Char) : Bool :=
  c != '\n'

/-- The bullet-marker class `[-*]` of the dependency and criteria blocks. -/
def bulletC (c : Char) : Bool :=
  c = '-' || c = '*'

/-- Python `str.lower` on ASCII text. -/
def lowerStr (s : String) : String :=
  String.mk (s.data.map Char.toLower)

/-- Python substring containment `needle in hay`. -/
def containsSub (hay needle : String) : Bool :=
  hay.data.tails.any (fun t => needle.data.isPrefixOf t)

/-- Python `str.strip()` on a character list: drop leading and trailing
whitespace. -/
def pyStrip (cs : List Char) : List Char :=
  ((cs.dropWhile pyWs).reverse.dropWhile pyWs).reverse

/-- Python `str.lstrip("-*")`: drop leading characters drawn from the given
set. -/
def pyLstrip (cs : List Char) (set : List Char) : List Char :=
  cs.dropWhile (fun c => set.contains c)

/-- Python `str.split("\n")` (single-character separator, keeps empty
fields, yields one field for the empty string). -/
def splitNl (cs : List Char) : List (List Char) :=
  match cs.splitOn '\n' with
  | l => l

/-! ## Stable descending sort

Python's `list.sort(key=..., reverse=True)` is a stable sort: entries are
ordered by descending key and entries with equal keys keep their original
relative order.  A stable sort is extensionally unique, so we realize it by
insertion: an element is placed before the first already-sorted element
whose key is not greater than its own. -/

def insertByScoreDesc (f : α → Nat) (x : α) : List α → List α
  | [] => [x]
  | y :: ys => if f y ≤ f x then x :: y :: ys else y :: insertByScoreDesc f x ys

def stableSortDesc (f : α → Nat) : List α → List α
  | [] => []
  | x :: xs => insertByScoreDesc f x (stableSortDesc f xs)

/-- The first element of a list attaining the maximal value of `f`
(later elements win only with a strictly larger value). -/
def firstMaxBy (f : α → Nat) : List α → Option α
  | [] => none
  | x :: xs =>
    match firstMaxBy f xs with
    | none => some x
    | some m => if f m ≤ f x then some x else some m

/-! ## `continuous-learning-monitor.py`: data model

An item flowing through the monitor is a Python dict.  Different producers
put different keys in it: discovery produces repos/papers with `type`,
`title` or `description`/`abstract` and `id`; the pattern detector produces
dicts with `pattern_type`, `theme`, `sources`, `items` and `insight` and
none of the former keys.  We embed such dicts as a structure of `Option`
fields, `none` meaning the key is absent.  The `items` key of a pattern
(its member items) is not embedded: it would make the type recursive and
no code covered by a claim ever reads it (scoring and theme extraction only
read `type`, `title`, `description` and `abstract`). -/

structure MonitorItem where
  type : Option String := none
  title : Option String := none
  description : Option String := none
  abstract : Option String := none
  id : Option String := none
  pattern_type : Option String := none
  theme : Option String := none
  sources : Option (List String) := none
  insight : Option String := none
deriving DecidableEq, Repr

/-- `generate_id`: `hashlib.md5(f"{source}:{identifier}".encode()).hexdigest()`.
The md5 hex digest is modelled as an abstract digest function; all the spec
uses is that the id is a deterministic function of `(source, identifier)`. -/
def generate_id (digest : String → String) (source identifier : String) : String :=
  digest (source ++ ":" ++ identifier)

/-- The fixed keyword vocabulary of `extract_keywords`. -/
def important_terms : List String :=
  ["ai", "machine learning", "autonomous", "distributed",
   "blockchain", "governance", "democracy", "ethics",
   "embedding", "parallel", "quantum", "biology"]

/-- The combined text fields scanned by the detector and the prioritizer:
`f"{item.get('title', '')} {item.get('description', '')} {item.get('abstract', '')}"`. -/
def combinedText (e : MonitorItem) : String :=
  (e.title.getD "") ++ " " ++ (e.description.getD "") ++ " " ++ (e.abstract.getD "")

/-- `extract_keywords`: every vocabulary term contained in the lowercased
text, in vocabulary order. -/
def extract_keywords (text : String) : List String :=
  important_terms.filter (fun term => containsSub (lowerStr text) term)

/-- The theme groups of `detect_cross_domain_patterns`, as an association
list in Python dict insertion order: a new theme is appended at the end,
an item joining an existing theme is appended to that theme's list. -/
def addToGroup : List (String × List MonitorItem) → String → MonitorItem →
    List (String × List MonitorItem)
  | [], kw, item => [(kw, [item])]
  | (k, its) :: rest, kw, item =>
    if k = kw then (k, its ++ [item]) :: rest else (k, its) :: addToGroup rest kw item

def themeGroups (items : List MonitorItem) : List (String × List MonitorItem) :=
  items.foldl
    (fun gs item =>
      (extract_keywords (combinedText item)).foldl
        (fun gs' kw => addToGroup gs' kw item) gs)
    []

/-- The pattern dict built by `detect_cross_domain_patterns` for a theme
whose group spans more than one source type.  It carries exactly the keys
`pattern_type`, `theme`, `sources`, `insight` (and member items, see
`MonitorItem`); in particular it has no `type`, `title`, `description`,
`abstract` or `id` key.  `sources` is `list(set(...))`; a Python set
iterates in unspecified order, modelled here by `List.dedup` (no claim
depends on the order, only on the cardinality). -/
def mkPattern (theme : String) (sources : List String) : MonitorItem :=
  { pattern_type := some "cross_domain_theme",
    theme := some theme,
    sources := some sources,
    insight := some ("Theme '" ++ theme ++ "' appearing across " ++
      String.intercalate ", " sources) }

/-- `detect_cross_domain_patterns`: for every theme group of at least two
items spanning more than one distinct `type`, emit a pattern.  Reading
`item["type"]` is modelled as `.getD ""`; discovery items always carry the
key. -/
def detect_cross_domain_patterns (items : List MonitorItem) : List MonitorItem :=
  (themeGroups items).filterMap (fun g =>
    if 2 ≤ g.2.length then
      let sources := (g.2.map (fun i => i.type.getD "")).dedup
      if 1 < sources.length then some (mkPattern g.1 sources) else none
    else none)

/-- The three keyword tiers of `prioritize_learning_opportunities`. -/
def mission_terms : List String := ["ai autonomy", "ai collaboration", "ai governance"]

def mid_terms : List String := ["distributed", "democratic", "open source"]

def general_terms : List String := ["ai", "machine learning", "llm"]

/-- The score computed for one entry by `prioritize_learning_opportunities`.
All four checks run independently and add up; the last one is
`item.get("type") == "cross_domain_pattern"` (absent key compares unequal). -/
def priorityScore (e : MonitorItem) : Nat :=
  (if mission_terms.any (fun t => containsSub (lowerStr (combinedText e)) t) then 5 else 0) +
  (if mid_terms.any (fun t => containsSub (lowerStr (combinedText e)) t) then 3 else 0) +
  (if general_terms.any (fun t => containsSub (lowerStr (combinedText e)) t) then 1 else 0) +
  (if e.type = some "cross_domain_pattern" then 2 else 0)

/-- `prioritize_learning_opportunities`: score every entry, sort the scored
pairs stably by descending score, keep the entries with positive score. -/
def prioritize_learning_opportunities (items : List MonitorItem) : List MonitorItem :=
  (stableSortDesc (fun p => p.1) (items.map (fun i => (priorityScore i, i)))).filterMap
    (fun p => if 0 < p.1 then some p.2 else none)

/-- The dedup filter loop of `run_monitoring_cycle`: walk the discovered
items in order; an item whose id is already in the seen set is dropped,
otherwise it is appended to the new-items batch and its id is added to the
seen set immediately (so a duplicate later in the same batch is dropped
too).  Returns the batch and the updated seen set. -/
def dedupFilter (seen : List String) : List MonitorItem → List MonitorItem × List String
  | [] => ([], seen)
  | item :: rest =>
    if (item.id.getD "") ∈ seen then dedupFilter seen rest
    else
      let r := dedupFilter ((item.id.getD "") :: seen) rest
      (item :: r.1, r.2)

/-! ## A small backtracking regex matcher

`parse_task_requirements` uses four `re.search` calls.  We embed exactly
the regular-expression constructs they use: single-character classes,
concatenation, alternation and Kleene star (`+` and `?` are sugar).
`mmatch` returns the list of possible remainders of the input after a
match at its start, in Python backtracking priority order: a star tries
the longest repetition first, `?` tries presence first, and alternatives
are tried left to right.  Recursion is by fuel; every recursive call
strictly decreases the measure `|s| * (regSize root + 1) + regSize r`
(the star case only recurses on a strictly shorter input), so the fuel
`(|s| + 1) * (regSize r + 1)` supplied by `matchGroupAt` is never
exhausted. -/

inductive Reg where
  | eps : Reg
  | cls : (Char → Bool) → Reg
  | cat : Reg → Reg → Reg
  | alt : Reg → Reg → Reg
  | star : Reg → Reg

def regSize : Reg → Nat
  | .eps => 1
  | .cls _ => 1
  | .cat a b => regSize a + regSize b + 1
  | .alt a b => regSize a + regSize b + 1
  | .star r => regSize r + 1

/-- One-or-more, `r+` = `r r*`. -/
def Reg.plus (r : Reg) : Reg := .cat r (.star r)

/-- Zero-or-one, `r?` = `r | ε`, presence first. -/
def Reg.opt (r : Reg) : Reg := .alt r .eps

/-- A case-insensitive literal character, as under `re.IGNORECASE`. -/
def litCI (a : Char) : Reg := .cls (fun c => c.toLower = a.toLower)

/-- A case-insensitive literal string. -/
def litStrCI (l : List Char) : Reg := l.foldr (fun a r => .cat (litCI a) r) .eps

def mmatch : Nat → Reg → List Char → List (List Char)
  | 0, _, _ => []
  | _ + 1, .eps, s => [s]
  | _ + 1, .cls _, [] => []
  | _ + 1, .cls p, c :: cs => if p c then [cs] else []
  | fuel + 1, .alt r₁ r₂, s => mmatch fuel r₁ s ++ mmatch fuel r₂ s
  | fuel + 1, .cat r₁ r₂, s =>
    (mmatch fuel r₁ s).flatMap (fun t => mmatch fuel r₂ t)
  | fuel + 1, .star r, s =>
    ((mmatch fuel r s).flatMap
      (fun t => if t.length < s.length then mmatch fuel (.star r) t else [])) ++ [s]

/-- Match `pre` followed by a trailing capture group `grp` at the start of
`s`, in backtracking priority order, and return the characters consumed by
the group for the highest-priority full match (Python `group(1)` when the
group is the tail of the pattern). -/
def matchGroupAt (pre grp : Reg) (s : List Char) : Option (List Char) :=
  ((mmatch ((s.length + 1) * (regSize (.cat pre grp) + 1)) pre s).flatMap
    (fun t =>
      (mmatch ((s.length + 1) * (regSize (.cat pre grp) + 1)) grp t).map
        (fun u => t.take (t.length - u.length)))).head?

/-- `re.search` for a pattern `pre(grp)`: try every start offset from the
left; at the first offset admitting a match, return the capture of the
highest-priority match there. -/
def searchG (pre grp : Reg) : List Char → Option (List Char)
  | [] => matchGroupAt pre grp []
  | c :: cs =>
    match matchGroupAt pre grp (c :: cs) with
    | some g => some g
    | none => searchG pre grp cs

/-! ## `github-work-queue.py`: work items and requirement parsing -/

/-- A WorkItem as returned by the tracker listing
(`--json number,title,body,labels,assignees`); `labels` and `assignees`
are never read by the selection or parsing code and are not embedded. -/
structure WorkItem where
  number : Nat
  title : String
  body : String
deriving DecidableEq, Repr

/-- The parsed requirements dict of `parse_task_requirements`, with its
default values. -/
structure TaskRequirements where
  type : String := "general"
  priority : String := "medium"
  estimated_time : String := "unknown"
  dependencies : List String := []
  success_criteria : List String := []
deriving DecidableEq, Repr

/-- `Type:\s*(\w+)` (prefix part before the group). -/
def typePre : Reg := .cat (litStrCI "Type:".data) (.star (.cls pyWs))

/-- `Priority:\s*(\w+)` (prefix part before the group). -/
def priorityPre : Reg := .cat (litStrCI "Priority:".data) (.star (.cls pyWs))

/-- The `(\w+)` capture group. -/
def wordGrp : Reg := Reg.plus (.cls pyWord)

/-- `Dependencies:\s*\n` (prefix part before the group). -/
def depsPre : Reg :=
  .cat (litStrCI "Dependencies:".data) (.cat (.star (.cls pyWs)) (.cls (fun c => c = '\n')))

/-- `Success Criteria:\s*\n` (prefix part before the group). -/
def criteriaPre : Reg :=
  .cat (litStrCI "Success Criteria:".data) (.cat (.star (.cls pyWs)) (.cls (fun c => c = '\n')))

/-- The bullet-block capture group `((?:[-*]\s*.+\n?)+)`. -/
def bulletGrp : Reg :=
  Reg.plus (.cat (.cls bulletC)
    (.cat (.star (.cls pyWs)) (.cat (Reg.plus (.cls pyDot)) (Reg.opt (.cls (fun c => c = '\n'))))))

def searchType (cs : List Char) : Option (List Char) := searchG typePre wordGrp cs

def searchPriority (cs : List Char) : Option (List Char) := searchG priorityPre wordGrp cs

def searchDeps (cs : List Char) : Option (List Char) := searchG depsPre bulletGrp cs

def searchCriteria (cs : List Char) : Option (List Char) := searchG criteriaPre bulletGrp cs

/-- The list post-processing of a captured bullet block:
`[line.strip().lstrip("-*").strip() for line in text.strip().split("\n")]`. -/
def parseBullets (g : List Char) : List String :=
  (splitNl (pyStrip g)).map
    (fun line => String.mk (pyStrip (pyLstrip (pyStrip line) ['-', '*'])))

/-- `parse_task_requirements`: start from the defaults and overwrite each
field whose `re.search` succeeds; captured words are lowercased.  The
function is total — parsing never raises. -/
def parse_task_requirements (body : String) : TaskRequirements :=
  let cs := body.data
  { type :=
      match searchType cs with
      | some g => String.mk (g.map Char.toLower)
      | none => "general",
    priority :=
      match searchPriority cs with
      | some g => String.mk (g.map Char.toLower)
      | none => "medium",
    estimated_time := "unknown",
    dependencies :=
      match searchDeps cs with
      | some g => parseBullets g
      | none => [],
    success_criteria :=
      match searchCriteria cs with
      | some g => parseBullets g
      | none => [] }

/-- The score `select_best_task` computes for one candidate: priority
weight (`high` 3, `medium` 2, anything else 1), plus 2 when the parsed
dependency list is empty, plus 1 when the parsed success criteria list is
non-empty. -/
def taskScore (task : WorkItem) : Nat :=
  (if (parse_task_requirements task.body).priority = "high" then 3
   else if (parse_task_requirements task.body).priority = "medium" then 2
   else 1) +
  (if (parse_task_requirements task.body).dependencies = [] then 2 else 0) +
  (if (parse_task_requirements task.body).success_criteria ≠ [] then 1 else 0)

/-- `select_best_task`: `None` on an empty list, otherwise score every
candidate, sort the scored pairs stably by descending score, return the
first. -/
def select_best_task (tasks : List WorkItem) : Option WorkItem :=
  if tasks.isEmpty then none
  else
    ((stableSortDesc (fun p => p.1) (tasks.map (fun t => (taskScore t, t)))).head?).map
      (fun p => p.2)

/-- `get_ready_tasks` wraps `subprocess.run([... "gh", "issue", "list" ...],
check=True)` followed by `json.loads(result.stdout)` in a `try` whose only
handler is `except subprocess.CalledProcessError`.  The possible outcomes
of the external listing call are embedded as an inductive: success with a
parseable issue list; a nonzero gh exit (raising `CalledProcessError`);
a zero exit whose stdout is not valid JSON (`json.loads` raises
`JSONDecodeError`); a missing `gh` executable (`subprocess.run` raises
`FileNotFoundError`). -/
inductive GhListOutcome where
  | ok (issues : List WorkItem)
  | calledProcessError
  | badJson
  | execNotFound
deriving DecidableEq, Repr

/-- `get_ready_tasks`: an `Except.error` value models an exception
propagating out of the function; only `CalledProcessError` is caught and
turned into the empty list. -/
def get_ready_tasks : GhListOutcome → Except String (List WorkItem)
  | .ok issues => .ok issues
  | .calledProcessError => .ok []
  | .badJson => .error "json.decoder.JSONDecodeError"
  | .execNotFound => .error "FileNotFoundError"

/-- Outcomes of the listing call that are failures (everything except a
successful, parseable listing). -/
def isListingFailure : GhListOutcome → Prop
  | .ok _ => False
  | _ => True

instance : DecidablePred isListingFailure := by
  intro o
  cases o <;> simp [isListingFailure] <;> infer_instance

/-! ## `continuous-learning-monitor.py`: persistence of the dedup store

`save_seen_items` runs `open(path, "w")` followed by
`json.dump(list(self.seen_items), f)` inside a `try/except` that only
prints on failure.  Opening with mode `"w"` truncates the file in place
before anything is written.  We model the durable file (`Option String`,
`none` = missing) through the observable intermediate states of one save:
the state before the call, the state after `open(path, "w")` (truncated to
empty), and the state after a completed `json.dump`.  A crash or exception
between the first and second write step leaves the truncated state on
disk, and the `except` clause does not restore anything. -/

def save_seen_items_states (prev : Option String) (serialized : String) : List (Option String) :=
  [prev, some "", some serialized]

/-- Modelled from the spec: "persistence must be atomic: write-temp-then-
rename or equivalent, never truncate-in-place on failure" — every durably
observable state during a save of the Dedup Store is either the previously
persisted contents or the completely written new contents. -/
def atomicPersistence (prev : Option String) (serialized : String) : Prop :=
  ∀ st ∈ save_seen_items_states prev serialized, st = prev ∨ st = some serialized

/-! ## `autonomous-learner.py`: task generation -/

/-- A learning report as consumed by `process_learning_insights`
(`learning_report.get("patterns_detected", 0)`,
`learning_report.get("top_themes", [])`); the other report keys are never
read by the generator. -/
structure LearningReport where
  patterns_detected : Nat := 0
  top_themes : List String := []
deriving DecidableEq, Repr

/-- A generated task proposal dict. -/
structure GeneratedTask where
  title : String
  type : String
  priority : String
  description : String
deriving DecidableEq, Repr

/-- `process_learning_insights`: rule 1 emits a research task when any
patterns were detected; rule 2 emits a learning task for each of the first
two top themes that is in the actionable set, `high` priority exactly for
the theme `autonomous`; rule 3 emits one synthesis task when there are at
least two top themes.  Emission order is rule 1, rule 2 in theme order,
rule 3. -/
def process_learning_insights (r : LearningReport) : List GeneratedTask :=
  let patternTasks :=
    if 0 < r.patterns_detected then
      [{ title := "Analyze " ++ toString r.patterns_detected ++ " cross-domain patterns",
         type := "research",
         priority := "medium",
         description := "Investigate patterns detected in learning cycle: " ++
           String.intercalate ", " r.top_themes }]
    else []
  let themeTasks :=
    (r.top_themes.take 2).filterMap (fun theme =>
      if theme ∈ ["ai", "autonomous", "governance"] then
        some { title := "Deep dive into " ++ theme ++ " developments",
               type := "learning",
               priority := if theme = "autonomous" then "high" else "medium",
               description := "Research recent developments in " ++ theme ++
                 " based on monitoring insights" }
      else none)
  let synthesisTasks :=
    match r.top_themes with
    | t0 :: t1 :: _ =>
      [{ title := "Synthesize insights across " ++ String.intercalate " and " [t0, t1],
         type := "synthesis",
         priority := "high",
         description := "Integrate learnings from " ++ t0 ++ " and " ++ t1 ++
           " to identify novel connections" }]
    | _ => []
  patternTasks ++ themeTasks ++ synthesisTasks

/-! ## `autonomous-learner.py`: the continuous-run loop

`run_continuous` increments `cycle_count` at the top of each iteration and
then runs `autonomous_cycle()`; the loop body's `try` has exactly two
handlers: `except KeyboardInterrupt: break` and `except Exception:
time.sleep(300)`; a successful iteration sleeps
`cycle_interval_minutes * 60` seconds.  We model one iteration's outcome as
an environment choice and the loop as a trace function: for each processed
outcome it records the cycle number used for that iteration and the pause
(in seconds) slept after it, stopping at the first stop signal. -/

inductive CycleOutcome where
  | ok
  | fatal
  | interrupt
deriving DecidableEq, Repr

/-- The pause slept after one iteration: the fixed inter-cycle sleep after
success, the fixed 300-second (5-minute) backoff after a cycle-fatal
failure. -/
def pauseOf (interval_minutes : Nat) : CycleOutcome → Nat
  | .ok => interval_minutes * 60
  | .fatal => 300
  | .interrupt => 0

/-- The trace of `run_continuous` started at cycle counter `c`, driven by a
list of iteration outcomes: each non-interrupt outcome contributes one
`(cycle number, pause seconds)` record; the first interrupt (the explicit
stop signal) ends the loop. -/
def loopRun (interval_minutes : Nat) (c : Nat) : List CycleOutcome → List (Nat × Nat)
  | [] => []
  | o :: os =>
    match o with
    | .interrupt => []
    | .ok => (c + 1, pauseOf interval_minutes .ok) :: loopRun interval_minutes (c + 1) os
    | .fatal => (c + 1, pauseOf interval_minutes .fatal) :: loopRun interval_minutes (c + 1) os

/-! ## Concrete fixtures used by witnesses and counterexamples -/

/-- A discovered GitHub repo item (repo dicts carry `type`, `description`,
`id` among others, but no `title`/`abstract`). -/
def itemA : MonitorItem :=
  { type := some "github_repo", description := some "ai agents", id := some "idA" }

/-- A discovered ArXiv paper item. -/
def itemB : MonitorItem :=
  { type := some "arxiv_paper", title := some "ai safety", abstract := some "ai safety", id := some "idB" }

/-- The pattern the detector emits for the batch `[itemA, itemB]` (both
match the theme `ai` and their `type`s differ). -/
def patternAI : MonitorItem := mkPattern "ai" ["github_repo", "arxiv_paper"]

/-- A raw item whose combined text is the same as a pattern's (all text
fields absent). -/
def itemEmpty : MonitorItem := { type := some "github_repo" }

/-- Work items used as witnesses for the selector. -/
def wA : WorkItem := { number := 1, title := "a", body := "Priority: High" }

def wB : WorkItem := { number := 2, title := "b", body := "" }

def wC : WorkItem := { number := 3, title := "c", body := "" }

/-- The issue body of the requirements-parsing round trip: a `Priority:`
field, a `Dependencies:` block with two bullets and a `Success Criteria:`
block with one bullet. -/
def roundTripBody : String :=
  "Priority: High\nDependencies:\n- task one\n- task two\nSuccess Criteria:\n- done"
theorem head?_insertByScoreDesc (f : α → Nat) (x : α) (l : List α) :
    (insertByScoreDesc f x l).head? =
      some (match l with
            | [] => x
            | y :: _ => if f y ≤ f x then x else y) := by
  cases l with
  | nil => rfl
  | cons y ys =>
    by_cases h : f y ≤ f x <;> simp [insertByScoreDesc, h]

theorem head?_stableSortDesc (f : α → Nat) (l : List α) :
    (stableSortDesc f l).head? = firstMaxBy f l := by
  induction l with
  | nil => rfl
  | cons x xs ih =>
    rw [stableSortDesc, head?_insertByScoreDesc, firstMaxBy, ← ih]
    rcases stableSortDesc f xs with _ | ⟨y, ys⟩
    · simp
    · by_cases h : f y ≤ f x <;> simp [h]

theorem firstMaxBy_eq_none (f : α → Nat) (l : List α) :
    firstMaxBy f l = none ↔ l = [] := by
  cases l with
  | nil => simp [firstMaxBy]
  | cons x xs =>
    simp only [firstMaxBy]
    rcases firstMaxBy f xs with _ | m'
    · simp
    · by_cases hle : f m' ≤ f x <;> simp [hle]

theorem firstMaxBy_mem (f : α → Nat) (l : List α) (m : α)
    (h : firstMaxBy f l = some m) : m ∈ l := by
  induction l generalizing m with
  | nil => simp [firstMaxBy] at h
  | cons x xs ih =>
    rw [firstMaxBy] at h
    rcases hm : firstMaxBy f xs with _ | m' <;> rw [hm] at h
    · simp at h
      simp [h]
    · by_cases hle : f m' ≤ f x
      · simp [hle] at h
        simp [h]
      · simp [hle] at h
        subst h
        exact List.mem_cons_of_mem x (ih m' hm)

theorem firstMaxBy_max (f : α → Nat) (l : List α) (m : α)
    (h : firstMaxBy f l = some m) : ∀ u ∈ l, f u ≤ f m := by
  induction l generalizing m with
  | nil => simp [firstMaxBy] at h
  | cons x xs ih =>
    rw [firstMaxBy] at h
    rcases hm : firstMaxBy f xs with _ | m' <;> rw [hm] at h
    · have hxs : xs = [] := (firstMaxBy_eq_none f xs).mp hm
      subst hxs
      simp at h
      subst h
      simp
    · intro u hu
      rcases List.mem_cons.mp hu with h1 | h2
      · subst h1
        by_cases hle : f m' ≤ f u
        · simp [hle] at h
          subst h
          exact le_refl _
        · simp [hle] at h
          subst h
          exact le_of_not_le hle
      · by_cases hle : f m' ≤ f x
        · simp [hle] at h
          subst h
          exact le_trans (ih m' hm u h2) hle
        · simp [hle] at h
          subst h
          exact ih m' hm u h2

theorem mem_insertByScoreDesc (f : α → Nat) (x : α) (l : List α) (u : α) :
    u ∈ insertByScoreDesc f x l ↔ u = x ∨ u ∈ l := by
  induction l with
  | nil => simp [insertByScoreDesc]
  | cons y ys ih =>
    by_cases h : f y ≤ f x
    · simp [insertByScoreDesc, h]
    · simp [insertByScoreDesc, h, ih]
      tauto

theorem mem_stableSortDesc (f : α → Nat) (l : List α) (u : α) :
    u ∈ stableSortDesc f l ↔ u ∈ l := by
  induction l with
  | nil => simp [stableSortDesc]
  | cons x xs ih =>
    simp [stableSortDesc, mem_insertByScoreDesc, ih]


/-! ## Helper lemmas about the embedded operations -/

/-- `select_best_task` returns the first score-maximal candidate: the head
of the stable descending sort is the leftmost maximum. -/
theorem select_best_task_eq (tasks : List WorkItem) :
    select_best_task tasks =
      (firstMaxBy (fun p => p.1) (tasks.map (fun t => (taskScore t, t)))).map
        (fun p => p.2) := by
  unfold select_best_task
  by_cases h : tasks.isEmpty
  · have he : tasks = [] := List.isEmpty_iff.mp h
    subst he
    simp [firstMaxBy]
  · simp [h, head?_stableSortDesc]

/-- Every entry of the prioritized queue has a positive score. -/
theorem pos_of_mem_prioritize (l : List MonitorItem) (e : MonitorItem)
    (h : e ∈ prioritize_learning_opportunities l) : 0 < priorityScore e := by
  unfold prioritize_learning_opportunities at h
  rcases List.mem_filterMap.mp h with ⟨p, hp, hpe⟩
  have hp' : p ∈ l.map (fun i => (priorityScore i, i)) := (mem_stableSortDesc _ _ _).mp hp
  rcases List.mem_map.mp hp' with ⟨i, _, rfl⟩
  by_cases h0 : 0 < priorityScore i
  · simp [h0] at hpe
    subst hpe
    exact h0
  · simp [h0] at hpe

/-- Everything the pattern detector emits is a pattern dict. -/
theorem detect_shape (items : List MonitorItem) (p : MonitorItem)
    (hp : p ∈ detect_cross_domain_patterns items) :
    ∃ th src, p = mkPattern th src := by
  unfold detect_cross_domain_patterns at hp
  rcases List.mem_filterMap.mp hp with ⟨g, _, hgp⟩
  by_cases h2 : 2 ≤ g.2.length
  · simp only [h2, if_true] at hgp
    by_cases h1 : 1 < ((g.2.map (fun i => i.type.getD "")).dedup).length
    · simp only [h1, if_true, Option.some.injEq] at hgp
      exact ⟨g.1, _, hgp.symm⟩
    · simp [h1] at hgp
  · simp [h2] at hgp

/-- A pattern dict has no text fields and no `type` key, so it scores 0. -/
theorem priorityScore_mkPattern (th : String) (src : List String) :
    priorityScore (mkPattern th src) = 0 := rfl

/-- The dedup filter never removes ids from the seen set. -/
theorem dedupFilter_seen_mono (seen : List String) (items : List MonitorItem) (x : String)
    (hx : x ∈ seen) : x ∈ (dedupFilter seen items).2 := by
  induction items generalizing seen with
  | nil => exact hx
  | cons i rest ih =>
    rw [dedupFilter]
    by_cases hmem : (i.id.getD "") ∈ seen
    · simp only [hmem, if_true]
      exact ih seen hx
    · simp only [hmem, if_false]
      exact ih _ (List.mem_cons_of_mem _ hx)

/-- After the filter runs, every processed item's id is in the seen set. -/
theorem dedupFilter_marks (seen : List String) (items : List MonitorItem) :
    ∀ i ∈ items, (i.id.getD "") ∈ (dedupFilter seen items).2 := by
  induction items generalizing seen with
  | nil => simp
  | cons j rest ih =>
    intro i hi
    rcases List.mem_cons.mp hi with h1 | h2
    · subst h1
      rw [dedupFilter]
      by_cases hmem : (i.id.getD "") ∈ seen
      · simp only [hmem, if_true]
        exact dedupFilter_seen_mono _ _ _ hmem
      · simp only [hmem, if_false]
        exact dedupFilter_seen_mono _ _ _ (List.mem_cons_self _ _)
    · rw [dedupFilter]
      by_cases hmem : (j.id.getD "") ∈ seen
      · simp only [hmem, if_true]
        exact ih seen i h2
      · simp only [hmem, if_false]
        exact ih _ i h2

/-- No item whose id was already seen makes it into the new batch. -/
theorem dedupFilter_new_not_seen (seen : List String) (items : List MonitorItem) :
    ∀ i ∈ (dedupFilter seen items).1, (i.id.getD "") ∉ seen := by
  induction items generalizing seen with
  | nil => simp [dedupFilter]
  | cons j rest ih =>
    intro i hi
    rw [dedupFilter] at hi
    by_cases hmem : (j.id.getD "") ∈ seen
    · simp only [hmem, if_true] at hi
      exact ih seen i hi
    · simp only [hmem, if_false] at hi
      rcases List.mem_cons.mp hi with h1 | h2
      · subst h1
        exact hmem
      · intro hcontra
        exact ih _ i h2 (List.mem_cons_of_mem _ hcontra)

/-- When every item's id is already seen, the new batch is empty. -/
theorem dedupFilter_all_seen_empty (seen : List String) (items : List MonitorItem)
    (h : ∀ i ∈ items, (i.id.getD "") ∈ seen) : (dedupFilter seen items).1 = [] := by
  induction items with
  | nil => rfl
  | cons j rest ih =>
    rw [dedupFilter]
    have hj := h j (List.mem_cons_self _ _)
    simp only [hj, if_true]
    exact ih (fun i hi => h i (List.mem_cons_of_mem _ hi))

/-- With no stop signal in the driving outcomes, the loop processes every
outcome (a cycle-fatal failure never ends the loop). -/
theorem loopRun_length (interval_minutes c : Nat) (os : List CycleOutcome)
    (h : CycleOutcome.interrupt ∉ os) :
    (loopRun interval_minutes c os).length = os.length := by
  induction os generalizing c with
  | nil => rfl
  | cons o os' ih =>
    have ho : o ≠ CycleOutcome.interrupt := fun he => h (he ▸ List.mem_cons_self _ _)
    have h' : CycleOutcome.interrupt ∉ os' := fun hm => h (List.mem_cons_of_mem _ hm)
    cases o with
    | interrupt => exact absurd rfl ho
    | ok => simp [loopRun, ih (c + 1) h']
    | fatal => simp [loopRun, ih (c + 1) h']

/-- With no stop signal, the `i`-th loop iteration runs cycle number
`c + i + 1` and is followed by the pause determined by its outcome. -/
theorem loopRun_getElem (interval_minutes c : Nat) (os : List CycleOutcome)
    (h : CycleOutcome.interrupt ∉ os) (i : Nat) :
    (loopRun interval_minutes c os)[i]? =
      (os[i]?).map (fun o => (c + i + 1, pauseOf interval_minutes o)) := by
  induction os generalizing c i with
  | nil => simp [loopRun]
  | cons o os' ih =>
    have ho : o ≠ CycleOutcome.interrupt := fun he => h (he ▸ List.mem_cons_self _ _)
    have h' : CycleOutcome.interrupt ∉ os' := fun hm => h (List.mem_cons_of_mem _ hm)
    cases o with
    | interrupt => exact absurd rfl ho
    | ok =>
      rw [loopRun]
      cases i with
      | zero => simp
      | succ n =>
        simp only [List.getElem?_cons_succ]
        rw [ih (c + 1) h' n]
        cases os'[n]? with
        | none => rfl
        | some o' =>
          simp only [Option.map_some']
          have : c + 1 + n + 1 = c + (n + 1) + 1 := by omega
          rw [this]
    | fatal =>
      rw [loopRun]
      cases i with
      | zero => simp
      | succ n =>
        simp only [List.getElem?_cons_succ]
        rw [ih (c + 1) h' n]
        cases os'[n]? with
        | none => rfl
        | some o' =>
          simp only [Option.map_some']
          have : c + 1 + n + 1 = c + (n + 1) + 1 := by omega
          rw [this]

/-! ## The claims -/

/-- Claim C1 (code bug): the spec's "+2 for a Pattern" bonus is dead code.
The prioritizer's bonus check `item.get("type") == "cross_domain_pattern"`
can never be true of a detector pattern: patterns carry
`pattern_type = "cross_domain_theme"` and no `type` key at all.  On the
concrete batch `[itemA, itemB]` the detector emits exactly the pattern
`patternAI`; its combined text equals that of the raw item `itemEmpty`,
yet it scores 0 — not 2 more — so the claimed bonus is never applied. -/
theorem c1_pattern_bonus_never_fires :
    detect_cross_domain_patterns [itemA, itemB] = [patternAI] ∧
    patternAI.type = none ∧
    patternAI.pattern_type = some "cross_domain_theme" ∧
    combinedText patternAI = combinedText itemEmpty ∧
    priorityScore patternAI = 0 ∧
    priorityScore itemEmpty = 0 := by
  refine ⟨by decide, rfl, rfl, rfl, rfl, rfl⟩

/-- Claim C2 (code bug): `save_seen_items` opens the store with mode "w",
truncating in place, before writing.  A failure between the truncation and
the completed write leaves the file empty — neither the previously
persisted set nor the new one — so persistence is not atomic. -/
theorem c2_truncate_in_place_not_atomic :
    some "" ∈ save_seen_items_states (some "[\"idA\"]") "[\"idA\", \"idB\"]" ∧
    ¬ atomicPersistence (some "[\"idA\"]") "[\"idA\", \"idB\"]" := by
  constructor
  · simp [save_seen_items_states]
  · intro h
    rcases h (some "") (by simp [save_seen_items_states]) with h1 | h1 <;>
      exact absurd (Option.some.inj h1) (by decide)

/-- Claim C3 (counterexample): not every failure of the listing call is
swallowed.  A missing `gh` executable raises `FileNotFoundError` inside
`subprocess.run`, which the `except subprocess.CalledProcessError` handler
does not catch, so the exception escapes instead of yielding `[]`. -/
theorem c3_counterexample :
    isListingFailure GhListOutcome.execNotFound ∧
    get_ready_tasks GhListOutcome.execNotFound ≠ Except.ok [] := by
  refine ⟨trivial, ?_⟩
  simp [get_ready_tasks]

/-- Claim C3 (amended): `get_ready_tasks` returns the empty list exactly
for listing failures signalled as a nonzero `gh` exit
(`subprocess.CalledProcessError`); a success returns the parsed issues,
while unparseable stdout or a missing executable propagates the
exception. -/
theorem c3_only_called_process_error_swallowed :
    get_ready_tasks GhListOutcome.calledProcessError = Except.ok [] ∧
    (∀ issues, get_ready_tasks (GhListOutcome.ok issues) = Except.ok issues) ∧
    get_ready_tasks GhListOutcome.badJson = Except.error "json.decoder.JSONDecodeError" ∧
    get_ready_tasks GhListOutcome.execNotFound = Except.error "FileNotFoundError" :=
  ⟨rfl, fun _ => rfl, rfl, rfl⟩

/-- Claim C4: for a report with two detected patterns and top themes
`autonomous` and `governance`, the generator emits exactly the research
task (medium), the learning task for `autonomous` (high), the learning
task for `governance` (medium) and the synthesis task naming both (high),
in that order and nothing else. -/
theorem c4_task_generation_deterministic :
    process_learning_insights { patterns_detected := 2, top_themes := ["autonomous", "governance"] } =
      [{ title := "Analyze 2 cross-domain patterns",
         type := "research",
         priority := "medium",
         description := "Investigate patterns detected in learning cycle: autonomous, governance" },
       { title := "Deep dive into autonomous developments",
         type := "learning",
         priority := "high",
         description := "Research recent developments in autonomous based on monitoring insights" },
       { title := "Deep dive into governance developments",
         type := "learning",
         priority := "medium",
         description := "Research recent developments in governance based on monitoring insights" },
       { title := "Synthesize insights across autonomous and governance",
         type := "synthesis",
         priority := "high",
         description := "Integrate learnings from autonomous and governance to identify novel connections" }] := by
  decide

/-- Claim C5: `select_best_task` returns `none` exactly on the empty list,
and otherwise returns a candidate whose computed score (priority weight
plus no-dependency bonus plus success-criteria bonus) is maximal among all
candidates. -/
theorem c5_select_best_task (tasks : List WorkItem) :
    (select_best_task tasks = none ↔ tasks = []) ∧
    ∀ t, select_best_task tasks = some t →
      t ∈ tasks ∧ ∀ u ∈ tasks, taskScore u ≤ taskScore t := by
  constructor
  · rw [select_best_task_eq]
    constructor
    · intro h
      have hf := Option.map_eq_none'.mp h
      have := (firstMaxBy_eq_none _ _).mp hf
      exact List.map_eq_nil_iff.mp this
    · intro h
      subst h
      rfl
  · intro t ht
    rw [select_best_task_eq] at ht
    rcases Option.map_eq_some'.mp ht with ⟨p, hp, hpt⟩
    rcases List.mem_map.mp (firstMaxBy_mem _ _ _ hp) with ⟨u, hu, hup⟩
    subst hup
    subst hpt
    refine ⟨hu, fun v hv => ?_⟩
    have := firstMaxBy_max _ _ _ hp (taskScore v, v) (List.mem_map.mpr ⟨v, hv, rfl⟩)
    exact this

/-- Claim C5 witness: on `[wA, wB]` the selector picks `wA`, whose score
dominates `wB`'s. -/
theorem c5_witness : taskScore wB ≤ taskScore wA :=
  ((c5_select_best_task [wA, wB]).2 wA (by decide)).2 wB (by decide)

/-- Claim C6: among candidates with identical computed scores the selector
is first-wins: on both orderings of a two-element tie, the candidate
listed first is returned (the stable descending sort never swaps equal
scores). -/
theorem c6_selector_tie_break (a b : WorkItem) (h : taskScore a = taskScore b) :
    select_best_task [a, b] = some a ∧ select_best_task [b, a] = some b := by
  constructor
  · rw [select_best_task_eq]
    simp [firstMaxBy, h]
  · rw [select_best_task_eq]
    simp [firstMaxBy, h]

/-- Claim C6 witness: `wB` and `wC` parse to identical requirements, so
their scores tie; each ordering returns its first element. -/
theorem c6_witness :
    select_best_task [wB, wC] = some wB ∧ select_best_task [wC, wB] = some wC :=
  c6_selector_tie_break wB wC (by decide)

/-- Claim C7: an id already in the dedup store is never reprocessed as
new — the cycle's filter loop excludes every item whose id is in the seen
set from the new-items batch — and a second run of the same discovery
output against the updated store yields zero new items. -/
theorem c7_dedup_invariant (seen : List String) (items : List MonitorItem) :
    (∀ i ∈ (dedupFilter seen items).1, (i.id.getD "") ∉ seen) ∧
    (dedupFilter (dedupFilter seen items).2 items).1 = [] :=
  ⟨dedupFilter_new_not_seen seen items,
   dedupFilter_all_seen_empty _ items (dedupFilter_marks seen items)⟩

/-- Claim C7 witness: running the filter twice over the concrete batch
`[itemA, itemB]` yields an empty second batch. -/
theorem c7_witness :
    (dedupFilter (dedupFilter [] [itemA, itemB]).2 [itemA, itemB]).1 = [] :=
  (c7_dedup_invariant [] [itemA, itemB]).2

/-- Claim C8: the round-trip body parses to `priority = "high"`, two
dependencies in original bullet order and one success criterion (with the
defaulted `type = "general"`); and whenever a field's or block's search
fails, the corresponding default (`general`, `medium`, empty list) is
kept.  The embedded parser is a total function: no input raises. -/
theorem c8_parse_requirements :
    (parse_task_requirements roundTripBody =
      { type := "general", priority := "high", estimated_time := "unknown",
        dependencies := ["task one", "task two"], success_criteria := ["done"] }) ∧
    ∀ body : String,
      (searchType body.data = none → (parse_task_requirements body).type = "general") ∧
      (searchPriority body.data = none → (parse_task_requirements body).priority = "medium") ∧
      (searchDeps body.data = none → (parse_task_requirements body).dependencies = []) ∧
      (searchCriteria body.data = none → (parse_task_requirements body).success_criteria = []) := by
  constructor
  · decide
  · intro body
    refine ⟨?_, ?_, ?_, ?_⟩ <;> intro h <;> simp [parse_task_requirements, h]

/-- Claim C8 witness: a body with none of the structured fields keeps the
default task type. -/
theorem c8_witness : (parse_task_requirements "hello").type = "general" :=
  (c8_parse_requirements.2 "hello").1 (by decide)

/-- Claim C9: in continuous-run mode a cycle-fatal failure is caught at
the loop boundary: with no stop signal among the outcomes, the loop
processes every outcome (it never terminates on a failure), iteration `i`
runs cycle number `c + i + 1` (increments by exactly one, no gap or
repeat) and is followed by the 300-second (5-minute) backoff exactly when
the outcome was cycle-fatal; an explicit stop signal ends the loop at
once. -/
theorem c9_backoff_and_numbering (interval_minutes c : Nat) (os : List CycleOutcome)
    (h : CycleOutcome.interrupt ∉ os) :
    (loopRun interval_minutes c os).length = os.length ∧
    (∀ i, (loopRun interval_minutes c os)[i]? =
      (os[i]?).map (fun o => (c + i + 1, pauseOf interval_minutes o))) ∧
    ∀ os₂, loopRun interval_minutes c (CycleOutcome.interrupt :: os₂) = [] :=
  ⟨loopRun_length interval_minutes c os h,
   fun i => loopRun_getElem interval_minutes c os h i,
   fun _ => rfl⟩

/-- Claim C9 witness: with a fatal failure in the second iteration of a
120-minute-interval run, that iteration is cycle number 2 and is followed
by a 300-second pause. -/
theorem c9_witness :
    (loopRun 120 0 [CycleOutcome.ok, CycleOutcome.fatal, CycleOutcome.ok])[1]? =
      some (2, 300) := by
  rw [(c9_backoff_and_numbering 120 0 [CycleOutcome.ok, CycleOutcome.fatal, CycleOutcome.ok]
    (by decide)).2.1 1]
  decide

/-- Claim C10: every pattern the detector emits carries no `title`,
`description`, `abstract` or `type` key, scores 0 in the prioritizer, and
is therefore excluded from the prioritized learning queue built from the
cycle's batch (`new_items + patterns`) — so the queue, and hence the
report's top themes, never contain a pattern entry. -/
theorem c10_patterns_excluded (items : List MonitorItem) (p : MonitorItem)
    (hp : p ∈ detect_cross_domain_patterns items) :
    p.title = none ∧ p.description = none ∧ p.abstract = none ∧ p.type = none ∧
    priorityScore p = 0 ∧
    p ∉ prioritize_learning_opportunities (items ++ detect_cross_domain_patterns items) := by
  rcases detect_shape items p hp with ⟨th, src, rfl⟩
  refine ⟨rfl, rfl, rfl, rfl, priorityScore_mkPattern th src, ?_⟩
  intro hmem
  have hpos := pos_of_mem_prioritize _ _ hmem
  rw [priorityScore_mkPattern] at hpos
  exact Nat.lt_irrefl _ hpos

/-- Claim C10 witness: the concrete pattern emitted for `[itemA, itemB]`
scores 0. -/
theorem c10_witness : priorityScore patternAI = 0 :=
  (c10_patterns_excluded [itemA, itemB] patternAI (by decide)).2.2.2.2.1
